import Mathlib

/-!
Verification of the anomaly-detection core of the dialysis session tracker.

The embedding models the TypeScript function `detectAnomalies`
(backend/src/config/database.ts, lines 36-82), its threshold constants
`ANOMALY_THRESHOLDS` (backend/src/config/swagger.ts, lines 33-47), and the
session-update handler's re-evaluation trigger
(backend/src/routes/sessions.ts, lines 187-211).

JavaScript numbers are modelled as exact rationals (ℚ); timestamps
(`Date.getTime()` values) as integers (ℤ, milliseconds); absent optional
fields as `Option`.  JS truthiness of a number is `≠ 0`; an object is
truthy whenever present.  `Number.prototype.toFixed` and `Math.round` are
embedded exactly on rationals (round half toward the larger candidate, sign
handled first for `toFixed`, matching the ECMAScript algorithm).
-/

/-- First character of a string, used to tell the four anomaly message
families apart. -/
def strHead (s : String) : Option Char := s.data.head?

/-- JS `Math.round`: round half up (toward positive infinity). -/
def jsRound (q : ℚ) : ℤ := ⌊q + 1/2⌋

/-- Left-pad a digit string with zeros to width `d`. -/
def padZeros (d : ℕ) (s : String) : String :=
  String.mk (List.replicate (d - s.length) '0') ++ s

/-- `toFixed` on a non-negative rational: the ECMAScript rule picks the
integer `n` minimising the distance of `n / 10^d` to the value, the larger
one on ties. -/
def jsToFixedPos (q : ℚ) (d : ℕ) : String :=
  let n : ℕ := (⌊q * 10 ^ d + 1/2⌋).toNat
  if d = 0 then toString n
  else toString (n / 10 ^ d) ++ "." ++ padZeros d (toString (n % 10 ^ d))

/-- JS `Number.prototype.toFixed(d)`: sign is split off first, then the
magnitude is rounded (ECMAScript Number.prototype.toFixed steps 5-6). -/
def jsToFixed (q : ℚ) (d : ℕ) : String :=
  if q < 0 then "-" ++ jsToFixedPos (-q) d else jsToFixedPos q d

/-- Rendering of a number by JS template-string interpolation.  Exact for
integer values (the only ones the recorded messages ever interpolate
through this path); a non-integral rational is rendered as an exact
fraction, abstracting the double shortest-round-trip digit rule. -/
def jsNumToString (q : ℚ) : String :=
  if q.den = 1 then toString q.num
  else toString q.num ++ "/" ++ toString q.den

/-- Post- or pre-treatment vital signs (backend/src/models/Session.ts,
interface IVitals). -/
structure IVitals where
  systolicBP : ℚ
  diastolicBP : ℚ
  heartRate : Option ℚ
  temperature : Option ℚ
deriving DecidableEq

/-- The `vitals` sub-document of a session: both phases optional. -/
structure VitalsRec where
  pre : Option IVitals
  post : Option IVitals
deriving DecidableEq

/-- Session lifecycle status (backend/src/models/Session.ts). -/
inductive SessionStatus where
  | not_started
  | in_progress
  | completed
deriving DecidableEq

/-- A dialysis session record (backend/src/models/Session.ts, interface
ISession).  `vitals` is optional because `detectAnomalies` reads it through
the optional chain `session.vitals?.post?.systolicBP`. -/
structure ISession where
  patientId : String
  scheduledDate : ℤ
  startTime : ℤ
  endTime : Option ℤ
  preWeight : ℚ
  postWeight : Option ℚ
  vitals : Option VitalsRec
  machineId : String
  nurseNotes : Option String
  status : SessionStatus
  anomalies : List String
deriving DecidableEq

/-- The patient argument of `detectAnomalies`: `{ dryWeight: number }`. -/
structure PatientArg where
  dryWeight : ℚ
deriving DecidableEq

/-- Return type of `detectAnomalies` (backend/src/config/database.ts,
interface AnomalyResult). -/
structure AnomalyResult where
  hasAnomalies : Bool
  anomalies : List String
deriving DecidableEq

/-- Clinical threshold constants (backend/src/config/swagger.ts). -/
structure AnomalyThresholds where
  MAX_WEIGHT_GAIN_PERCENT : ℚ
  HIGH_SYSTOLIC_BP : ℚ
  MIN_SESSION_DURATION : ℚ
  MAX_SESSION_DURATION : ℚ
  TARGET_SESSION_DURATION : ℚ

/-- The concrete threshold values of the repository. -/
def ANOMALY_THRESHOLDS : AnomalyThresholds :=
  { MAX_WEIGHT_GAIN_PERCENT := 0.05
    HIGH_SYSTOLIC_BP := 140
    MIN_SESSION_DURATION := 150
    MAX_SESSION_DURATION := 300
    TARGET_SESSION_DURATION := 240 }

/-- The excess-weight-gain message (database.ts line 49). -/
def excessWeightMsg (weightGain weightGainPercent : ℚ) : String :=
  "Excess interdialytic weight gain: " ++ jsToFixed weightGain 2 ++
    " kg (" ++ jsToFixed (weightGainPercent * 100) 1 ++ "% of dry weight)"

/-- The high post-dialysis systolic BP message (database.ts line 58). -/
def highBPMsg (bp : ℚ) : String :=
  "High post-dialysis systolic BP: " ++ jsNumToString bp ++
    " mmHg (threshold: " ++ jsNumToString ANOMALY_THRESHOLDS.HIGH_SYSTOLIC_BP ++ " mmHg)"

/-- The short-duration message (database.ts line 69). -/
def shortDurationMsg (durationMinutes : ℚ) : String :=
  "Short session duration: " ++ toString (jsRound durationMinutes) ++
    " minutes (minimum: " ++ jsNumToString ANOMALY_THRESHOLDS.MIN_SESSION_DURATION ++
    " minutes)"

/-- The long-duration message (database.ts line 73). -/
def longDurationMsg (durationMinutes : ℚ) : String :=
  "Long session duration: " ++ toString (jsRound durationMinutes) ++
    " minutes (maximum: " ++ jsNumToString ANOMALY_THRESHOLDS.MAX_SESSION_DURATION ++
    " minutes)"

/-- Weight-gain check (database.ts lines 43-52).  The JS guard
`session.preWeight && patient.dryWeight` skips the check when either number
is falsy, i.e. zero. -/
def weightGainCheck (session : ISession) (patient : PatientArg) : List String :=
  if session.preWeight ≠ 0 ∧ patient.dryWeight ≠ 0 then
    let weightGain := session.preWeight - patient.dryWeight
    let weightGainPercent := weightGain / patient.dryWeight
    if weightGainPercent > ANOMALY_THRESHOLDS.MAX_WEIGHT_GAIN_PERCENT then
      [excessWeightMsg weightGain weightGainPercent]
    else []
  else []

/-- BP check (database.ts lines 55-61).  The guard
`session.vitals?.post?.systolicBP` requires the chain to be present and the
number truthy. -/
def bpCheck (session : ISession) : List String :=
  match session.vitals with
  | none => []
  | some v =>
    match v.post with
    | none => []
    | some post =>
      if post.systolicBP ≠ 0 then
        if post.systolicBP > ANOMALY_THRESHOLDS.HIGH_SYSTOLIC_BP then
          [highBPMsg post.systolicBP]
        else []
      else []

/-- Duration check (database.ts lines 64-76).  `startTime` is a required
`Date` (always truthy), so the JS guard `session.endTime && session.startTime`
amounts to `endTime` being present. -/
def durationCheck (session : ISession) : List String :=
  match session.endTime with
  | none => []
  | some endTime =>
    let durationMinutes : ℚ := ((endTime : ℚ) - (session.startTime : ℚ)) / (1000 * 60)
    if durationMinutes < ANOMALY_THRESHOLDS.MIN_SESSION_DURATION then
      [shortDurationMsg durationMinutes]
    else if durationMinutes > ANOMALY_THRESHOLDS.MAX_SESSION_DURATION then
      [longDurationMsg durationMinutes]
    else []

/-- The anomaly evaluator (database.ts lines 36-82): the three checks push
their messages in order onto one list. -/
def detectAnomalies (session : ISession) (patient : PatientArg) : AnomalyResult :=
  let anomalies :=
    weightGainCheck session patient ++ bpCheck session ++ durationCheck session
  { hasAnomalies := decide (anomalies.length > 0), anomalies := anomalies }

/-- The value of the optional chain `session.vitals?.post?.systolicBP`,
used to state the BP-check trigger. -/
def postBP (s : ISession) : Option ℚ :=
  match s.vitals with
  | none => none
  | some v =>
    match v.post with
    | none => none
    | some post => some post.systolicBP

/-- The `vitals` object of a PATCH payload: keys present in the payload
override the stored sub-document by object spread. -/
structure UpdateVitals where
  pre : Option IVitals
  post : Option IVitals
deriving DecidableEq

/-- A PATCH /api/sessions/:id payload (sessions.ts lines 163-181): every
field optional.  A present `endTime` stands for a valid (hence truthy)
date-time string. -/
structure UpdatePayload where
  nurseNotes : Option String
  endTime : Option ℤ
  postWeight : Option ℚ
  vitals : Option UpdateVitals
  status : Option SessionStatus
deriving DecidableEq

/-- Field merging of the update handler (sessions.ts lines 197-201),
including the object spread `{ ...session.vitals, ...updates.vitals }`. -/
def applyUpdates (session : ISession) (updates : UpdatePayload) : ISession :=
  { session with
    nurseNotes :=
      match updates.nurseNotes with
      | some n => some n
      | none => session.nurseNotes
    endTime :=
      match updates.endTime with
      | some t => some t
      | none => session.endTime
    postWeight :=
      match updates.postWeight with
      | some w => some w
      | none => session.postWeight
    vitals :=
      match updates.vitals with
      | some uv =>
        some
          { pre :=
              match uv.pre with
              | some x => some x
              | none =>
                match session.vitals with
                | some v => v.pre
                | none => none
            post :=
              match uv.post with
              | some x => some x
              | none =>
                match session.vitals with
                | some v => v.post
                | none => none }
      | none => session.vitals
    status :=
      match updates.status with
      | some st => st
      | none => session.status }

/-- The re-evaluation trigger of the update handler (sessions.ts line 203):
`updates.postWeight !== undefined || updates.vitals?.post || updates.endTime`. -/
def shouldRecompute (updates : UpdatePayload) : Bool :=
  updates.postWeight.isSome ||
    (match updates.vitals with
     | some uv => uv.post.isSome
     | none => false) ||
    updates.endTime.isSome

/-- The anomaly-relevant effect of the PATCH handler (sessions.ts lines
197-211): merge the payload, and when the trigger fires and the patient
lookup succeeds, overwrite the stored anomaly list with a fresh
evaluation. -/
def patchSessionUpdate (session : ISession) (updates : UpdatePayload)
    (patientLookup : Option PatientArg) : ISession :=
  let updated := applyUpdates session updates
  if shouldRecompute updates then
    match patientLookup with
    | some patient =>
      { updated with anomalies := (detectAnomalies updated patient).anomalies }
    | none => updated
  else updated

/-- Concrete input for the C1 scenario: preWeight 75.0. -/
def sessC1 : ISession :=
  { patientId := "P001", scheduledDate := 0, startTime := 0, endTime := none
    preWeight := 75, postWeight := none, vitals := none, machineId := "M1"
    nurseNotes := none, status := SessionStatus.in_progress, anomalies := [] }

/-- Concrete patient for the C1 scenario: dryWeight 70.0. -/
def patC1 : PatientArg := { dryWeight := 70 }

/-- Concrete input for the C2 witness: a 120-minute session. -/
def sessC2 : ISession :=
  { patientId := "P002", scheduledDate := 0, startTime := 0, endTime := some 7200000
    preWeight := 70, postWeight := none, vitals := none, machineId := "M1"
    nurseNotes := none, status := SessionStatus.completed, anomalies := [] }

/-- Concrete patient for the C2 witness. -/
def patC2 : PatientArg := { dryWeight := 70 }

/-- Concrete input for the C3 witness: post systolic BP 145. -/
def sessC3 : ISession :=
  { patientId := "P003", scheduledDate := 0, startTime := 0, endTime := none
    preWeight := 70, postWeight := none
    vitals := some
      { pre := none
        post := some
          { systolicBP := 145, diastolicBP := 90, heartRate := none, temperature := none } }
    machineId := "M1", nurseNotes := none, status := SessionStatus.in_progress
    anomalies := [] }

/-- Concrete patient for the C3 witness. -/
def patC3 : PatientArg := { dryWeight := 70 }

/-- Concrete input for the C4 witness: all three triggers active
(weight gain 7.1%, BP 145, duration 120 min). -/
def sessC4 : ISession :=
  { patientId := "P004", scheduledDate := 0, startTime := 0, endTime := some 7200000
    preWeight := 75, postWeight := some 70
    vitals := some
      { pre := none
        post := some
          { systolicBP := 145, diastolicBP := 90, heartRate := none, temperature := none } }
    machineId := "M1", nurseNotes := none, status := SessionStatus.completed
    anomalies := [] }

/-- Concrete patient for the C4 witness. -/
def patC4 : PatientArg := { dryWeight := 70 }

/-- Concrete input for the C5 witness: preWeight recorded as 0. -/
def sessC5 : ISession :=
  { patientId := "P005", scheduledDate := 0, startTime := 0, endTime := none
    preWeight := 0, postWeight := none, vitals := none, machineId := "M1"
    nurseNotes := none, status := SessionStatus.in_progress, anomalies := [] }

/-- Concrete patient for the C5 witness. -/
def patC5 : PatientArg := { dryWeight := 70 }

/-- Concrete input for the C6 witness. -/
def sessC6 : ISession :=
  { patientId := "P006", scheduledDate := 0, startTime := 0, endTime := none
    preWeight := 75, postWeight := none, vitals := none, machineId := "M1"
    nurseNotes := none, status := SessionStatus.in_progress, anomalies := [] }

/-- Concrete patient for the C6 witness. -/
def patC6 : PatientArg := { dryWeight := 70 }

/-- Concrete input for the C8 counterexample: negative weights, weight
loss relative to dry weight. -/
def sessC8 : ISession :=
  { patientId := "P008", scheduledDate := 0, startTime := 0, endTime := none
    preWeight := -80, postWeight := none, vitals := none, machineId := "M1"
    nurseNotes := none, status := SessionStatus.in_progress, anomalies := [] }

/-- Concrete patient for the C8 counterexample: negative dry weight. -/
def patC8 : PatientArg := { dryWeight := -70 }

/-- Concrete session for the C8 amended-claim witness. -/
def sessC8w : ISession :=
  { patientId := "P018", scheduledDate := 0, startTime := 0, endTime := none
    preWeight := 68, postWeight := none, vitals := none, machineId := "M1"
    nurseNotes := none, status := SessionStatus.in_progress, anomalies := [] }

/-- Concrete patient for the C8 amended-claim witness. -/
def patC8w : PatientArg := { dryWeight := 70 }

/-- Stored session for the C9 witness, with a pre-existing anomaly list. -/
def sessC9 : ISession :=
  { patientId := "P009", scheduledDate := 0, startTime := 0, endTime := none
    preWeight := 75, postWeight := none, vitals := none, machineId := "M1"
    nurseNotes := none, status := SessionStatus.in_progress
    anomalies := ["Excess interdialytic weight gain: 5.00 kg (7.1% of dry weight)"] }

/-- C9 witness payload touching only nurseNotes. -/
def updC9notes : UpdatePayload :=
  { nurseNotes := some "patient stable", endTime := none, postWeight := none
    vitals := none, status := none }

/-- C9 witness payload touching postWeight. -/
def updC9post : UpdatePayload :=
  { nurseNotes := none, endTime := none, postWeight := some 71
    vitals := none, status := none }

/-- Concrete patient for the C9 witness. -/
def patC9 : PatientArg := { dryWeight := 70 }

/-- Concrete input for the C10 counterexample: endTime one second before
startTime. -/
def sessC10 : ISession :=
  { patientId := "P010", scheduledDate := 0, startTime := 1000, endTime := some 0
    preWeight := 70, postWeight := none, vitals := none, machineId := "M1"
    nurseNotes := none, status := SessionStatus.completed, anomalies := [] }

/-- Concrete patient for the C10 counterexample. -/
def patC10 : PatientArg := { dryWeight := 70 }

/-- Concrete input for the C10 amended-claim witness: endTime one hour
before startTime. -/
def sessC10w : ISession :=
  { patientId := "P020", scheduledDate := 0, startTime := 3600000, endTime := some 0
    preWeight := 70, postWeight := none, vitals := none, machineId := "M1"
    nurseNotes := none, status := SessionStatus.completed, anomalies := [] }

/-- Concrete patient for the C10 amended-claim witness. -/
def patC10w : PatientArg := { dryWeight := 70 }

theorem strDataAppend (a b : String) : (a ++ b).data = a.data ++ b.data := by
  cases a; cases b; rfl

theorem strHead_append (a b : String) (c : Char) (h : strHead a = some c) :
    strHead (a ++ b) = some c := by
  unfold strHead at h ⊢
  rw [strDataAppend]
  cases ha : a.data with
  | nil => rw [ha] at h; simp at h
  | cons d t => rw [ha] at h; simpa using h

theorem ne_of_strHead_ne {a b : String} {c d : Char}
    (ha : strHead a = some c) (hb : strHead b = some d) (hcd : c ≠ d) : a ≠ b := by
  intro he
  rw [he, hb] at ha
  exact hcd (Option.some.inj ha).symm

theorem strHead_excessWeightMsg (g q : ℚ) : strHead (excessWeightMsg g q) = some 'E' := by
  unfold excessWeightMsg
  apply strHead_append
  apply strHead_append
  apply strHead_append
  apply strHead_append
  decide

theorem strHead_highBPMsg (b : ℚ) : strHead (highBPMsg b) = some 'H' := by
  unfold highBPMsg
  apply strHead_append
  apply strHead_append
  apply strHead_append
  apply strHead_append
  decide

theorem strHead_shortDurationMsg (d : ℚ) : strHead (shortDurationMsg d) = some 'S' := by
  unfold shortDurationMsg
  apply strHead_append
  apply strHead_append
  apply strHead_append
  apply strHead_append
  decide

theorem strHead_longDurationMsg (d : ℚ) : strHead (longDurationMsg d) = some 'L' := by
  unfold longDurationMsg
  apply strHead_append
  apply strHead_append
  apply strHead_append
  apply strHead_append
  decide

theorem intFloorEq (q : ℚ) (z : ℤ) (h1 : (z : ℚ) ≤ q) (h2 : q < (z : ℚ) + 1) :
    ⌊q⌋ = z := by
  rw [Int.floor_eq_iff]
  exact ⟨h1, by exact_mod_cast h2⟩

theorem jsRound_eval (q : ℚ) (z : ℤ) (h1 : (z : ℚ) ≤ q + 1/2) (h2 : q + 1/2 < (z : ℚ) + 1) :
    jsRound q = z := intFloorEq _ _ h1 h2

theorem jsToFixedPos_eval (q : ℚ) (d : ℕ) (n : ℕ)
    (h1 : (n : ℚ) ≤ q * 10 ^ d + 1/2) (h2 : q * 10 ^ d + 1/2 < (n : ℚ) + 1) :
    jsToFixedPos q d =
      (if d = 0 then toString n
       else toString (n / 10 ^ d) ++ "." ++ padZeros d (toString (n % 10 ^ d))) := by
  have h : ⌊q * 10 ^ d + 1/2⌋ = (n : ℤ) :=
    intFloorEq _ _ (by exact_mod_cast h1) (by push_cast; exact_mod_cast h2)
  simp only [jsToFixedPos]
  rw [h, Int.toNat_natCast]

theorem jsToFixed_eval_nonneg (q : ℚ) (d : ℕ) (h : ¬q < 0) :
    jsToFixed q d = jsToFixedPos q d := by
  unfold jsToFixed; rw [if_neg h]

theorem jsToFixed_eval_neg (q : ℚ) (d : ℕ) (h : q < 0) :
    jsToFixed q d = "-" ++ jsToFixedPos (-q) d := by
  unfold jsToFixed; rw [if_pos h]

theorem detectAnomalies_anomalies (s : ISession) (p : PatientArg) :
    (detectAnomalies s p).anomalies =
      weightGainCheck s p ++ bpCheck s ++ durationCheck s := rfl

theorem weightGainCheck_eq_pos (s : ISession) (p : PatientArg)
    (h1 : s.preWeight ≠ 0) (h2 : p.dryWeight ≠ 0)
    (h3 : (s.preWeight - p.dryWeight) / p.dryWeight >
      ANOMALY_THRESHOLDS.MAX_WEIGHT_GAIN_PERCENT) :
    weightGainCheck s p =
      [excessWeightMsg (s.preWeight - p.dryWeight)
        ((s.preWeight - p.dryWeight) / p.dryWeight)] := by
  simp only [weightGainCheck]
  rw [if_pos ⟨h1, h2⟩, if_pos h3]

theorem weightGainCheck_eq_nil_of_skip (s : ISession) (p : PatientArg)
    (h : s.preWeight = 0 ∨ p.dryWeight = 0) : weightGainCheck s p = [] := by
  simp only [weightGainCheck]
  rw [if_neg]
  rcases h with h | h <;> simp [h]

theorem weightGainCheck_eq_nil_of_not_gt (s : ISession) (p : PatientArg)
    (h : ¬((s.preWeight - p.dryWeight) / p.dryWeight >
      ANOMALY_THRESHOLDS.MAX_WEIGHT_GAIN_PERCENT)) : weightGainCheck s p = [] := by
  simp only [weightGainCheck]
  split_ifs <;> rfl

theorem mem_weightGainCheck {s : ISession} {p : PatientArg} {m : String}
    (h : m ∈ weightGainCheck s p) :
    s.preWeight ≠ 0 ∧ p.dryWeight ≠ 0 ∧
      (s.preWeight - p.dryWeight) / p.dryWeight >
        ANOMALY_THRESHOLDS.MAX_WEIGHT_GAIN_PERCENT ∧
      m = excessWeightMsg (s.preWeight - p.dryWeight)
        ((s.preWeight - p.dryWeight) / p.dryWeight) := by
  simp only [weightGainCheck] at h
  split_ifs at h with h1 h2
  · simp only [List.mem_singleton] at h
    exact ⟨h1.1, h1.2, h2, h⟩
  · simp at h
  · simp at h

theorem bpCheck_eq_pos {s : ISession} {v : VitalsRec} {post : IVitals}
    (hv : s.vitals = some v) (hp : v.post = some post)
    (h0 : post.systolicBP ≠ 0)
    (hgt : post.systolicBP > ANOMALY_THRESHOLDS.HIGH_SYSTOLIC_BP) :
    bpCheck s = [highBPMsg post.systolicBP] := by
  simp only [bpCheck, hv, hp]
  rw [if_pos h0, if_pos hgt]

theorem mem_bpCheck {s : ISession} {m : String} (h : m ∈ bpCheck s) :
    ∃ v post, s.vitals = some v ∧ v.post = some post ∧ post.systolicBP ≠ 0 ∧
      post.systolicBP > ANOMALY_THRESHOLDS.HIGH_SYSTOLIC_BP ∧
      m = highBPMsg post.systolicBP := by
  obtain ⟨pid, sd, st, et, pw, pow, vit, mid, nn, stt, an⟩ := s
  cases vit with
  | none => simp [bpCheck] at h
  | some v =>
    obtain ⟨vpre, vpost⟩ := v
    cases vpost with
    | none => simp [bpCheck] at h
    | some post =>
      simp only [bpCheck] at h
      split_ifs at h with h0 hgt
      · simp only [List.mem_singleton] at h
        exact ⟨⟨vpre, some post⟩, post, rfl, rfl, h0, hgt, h⟩
      · simp at h
      · simp at h

theorem postBP_eq_some {s : ISession} {b : ℚ} (h : postBP s = some b) :
    ∃ v post, s.vitals = some v ∧ v.post = some post ∧ post.systolicBP = b := by
  obtain ⟨pid, sd, st, et, pw, pow, vit, mid, nn, stt, an⟩ := s
  cases vit with
  | none => simp [postBP] at h
  | some v =>
    obtain ⟨vpre, vpost⟩ := v
    cases vpost with
    | none => simp [postBP] at h
    | some post =>
      simp only [postBP, Option.some.injEq] at h
      exact ⟨⟨vpre, some post⟩, post, rfl, rfl, h⟩

theorem durationCheck_eq {s : ISession} {et : ℤ} {d : ℚ} (he : s.endTime = some et)
    (hd : d = ((et : ℚ) - (s.startTime : ℚ)) / (1000 * 60)) :
    durationCheck s =
      if d < ANOMALY_THRESHOLDS.MIN_SESSION_DURATION then [shortDurationMsg d]
      else if d > ANOMALY_THRESHOLDS.MAX_SESSION_DURATION then [longDurationMsg d]
      else [] := by
  subst hd
  simp only [durationCheck, he]

theorem durationCheck_eq_nil_of_none {s : ISession} (he : s.endTime = none) :
    durationCheck s = [] := by
  simp only [durationCheck, he]

theorem mem_durationCheck_head {s : ISession} {m : String} (h : m ∈ durationCheck s) :
    strHead m = some 'S' ∨ strHead m = some 'L' := by
  obtain ⟨pid, sd, st, et, pw, pow, vit, mid, nn, stt, an⟩ := s
  cases et with
  | none => simp [durationCheck] at h
  | some t =>
    simp only [durationCheck] at h
    split_ifs at h with h1 h2
    · simp only [List.mem_singleton] at h
      exact Or.inl (h ▸ strHead_shortDurationMsg _)
    · simp only [List.mem_singleton] at h
      exact Or.inr (h ▸ strHead_longDurationMsg _)
    · simp at h

theorem mem_weightGainCheck_head {s : ISession} {p : PatientArg} {m : String}
    (h : m ∈ weightGainCheck s p) : strHead m = some 'E' :=
  (mem_weightGainCheck h).2.2.2 ▸ strHead_excessWeightMsg _ _

theorem mem_bpCheck_head {s : ISession} {m : String} (h : m ∈ bpCheck s) :
    strHead m = some 'H' := by
  obtain ⟨v, post, hv, hp, h0, hgt, hm⟩ := mem_bpCheck h
  exact hm ▸ strHead_highBPMsg _

theorem length_weightGainCheck_le (s : ISession) (p : PatientArg) :
    (weightGainCheck s p).length ≤ 1 := by
  simp only [weightGainCheck]
  split_ifs <;> simp

theorem length_bpCheck_le (s : ISession) : (bpCheck s).length ≤ 1 := by
  obtain ⟨pid, sd, st, et, pw, pow, vit, mid, nn, stt, an⟩ := s
  cases vit with
  | none => simp [bpCheck]
  | some v =>
    obtain ⟨vpre, vpost⟩ := v
    cases vpost with
    | none => simp [bpCheck]
    | some post =>
      simp only [bpCheck]
      split_ifs <;> simp

theorem length_durationCheck_le (s : ISession) : (durationCheck s).length ≤ 1 := by
  obtain ⟨pid, sd, st, et, pw, pow, vit, mid, nn, stt, an⟩ := s
  cases et with
  | none => simp [durationCheck]
  | some t =>
    simp only [durationCheck]
    split_ifs <;> simp

theorem excessWeightMsg_eval_scenario :
    excessWeightMsg 5 (1/14) =
      "Excess interdialytic weight gain: 5.00 kg (7.1% of dry weight)" := by
  unfold excessWeightMsg
  rw [jsToFixed_eval_nonneg 5 2 (by norm_num),
    jsToFixedPos_eval 5 2 500 (by norm_num) (by norm_num),
    jsToFixed_eval_nonneg (1/14 * 100) 1 (by norm_num),
    jsToFixedPos_eval (1/14 * 100) 1 71 (by norm_num) (by norm_num)]
  rfl

/-- Claim C1: for every session and patient with dryWeight > 0, the output
contains the excess-weight-gain anomaly iff
(preWeight - dryWeight) / dryWeight > 0.05, and any message the weight-gain
check emits is exactly the formatted excess-weight-gain string. -/
theorem claim_C1 (s : ISession) (p : PatientArg) (hd : 0 < p.dryWeight) :
    ((excessWeightMsg (s.preWeight - p.dryWeight)
        ((s.preWeight - p.dryWeight) / p.dryWeight) ∈ (detectAnomalies s p).anomalies) ↔
      (s.preWeight - p.dryWeight) / p.dryWeight > 0.05) ∧
    ∀ m ∈ weightGainCheck s p,
      m = excessWeightMsg (s.preWeight - p.dryWeight)
        ((s.preWeight - p.dryWeight) / p.dryWeight) := by
  have hT : ANOMALY_THRESHOLDS.MAX_WEIGHT_GAIN_PERCENT = 0.05 := rfl
  constructor
  · constructor
    · intro hmem
      rw [detectAnomalies_anomalies] at hmem
      rcases List.mem_append.mp hmem with hmem2 | hdur
      · rcases List.mem_append.mp hmem2 with hwg | hbp
        · have h := (mem_weightGainCheck hwg).2.2.1
          rwa [hT] at h
        · have h1 := mem_bpCheck_head hbp
          rw [strHead_excessWeightMsg] at h1
          exact absurd h1 (by decide)
      · have h1 := mem_durationCheck_head hdur
        rw [strHead_excessWeightMsg] at h1
        rcases h1 with h1 | h1 <;> exact absurd h1 (by decide)
    · intro hgt
      have hdne : p.dryWeight ≠ 0 := ne_of_gt hd
      have h5 : (0.05 : ℚ) * p.dryWeight < s.preWeight - p.dryWeight :=
        (lt_div_iff₀ hd).mp hgt
      have h05 : (0 : ℚ) < (0.05 : ℚ) * p.dryWeight := by positivity
      have hpre : s.preWeight ≠ 0 := ne_of_gt (by linarith)
      rw [detectAnomalies_anomalies]
      apply List.mem_append_left
      apply List.mem_append_left
      rw [weightGainCheck_eq_pos s p hpre hdne (by rwa [hT])]
      exact List.mem_singleton_self _
  · intro m hm
    exact (mem_weightGainCheck hm).2.2.2

theorem claim_C1_witness :
    (0 : ℚ) < patC1.dryWeight ∧
      "Excess interdialytic weight gain: 5.00 kg (7.1% of dry weight)" ∈
        (detectAnomalies sessC1 patC1).anomalies := by
  refine ⟨by norm_num [patC1], ?_⟩
  have h := (claim_C1 sessC1 patC1 (by norm_num [patC1])).1.mpr
    (by norm_num [sessC1, patC1])
  have e1 : sessC1.preWeight - patC1.dryWeight = 5 := by norm_num [sessC1, patC1]
  have e2 : (sessC1.preWeight - patC1.dryWeight) / patC1.dryWeight = 1/14 := by
    norm_num [sessC1, patC1]
  rw [e2, e1, excessWeightMsg_eval_scenario] at h
  exact h

/-- Claim C5: the evaluator is total: every input produces the defined
three-check concatenation, and a falsy (zero) preWeight or dryWeight skips
the weight-gain check entirely, so the division by dryWeight is never
reached in that case. -/
theorem claim_C5 (s : ISession) (p : PatientArg) :
    (detectAnomalies s p).anomalies =
      weightGainCheck s p ++ bpCheck s ++ durationCheck s ∧
    ((s.preWeight = 0 ∨ p.dryWeight = 0) →
      weightGainCheck s p = [] ∧
        (detectAnomalies s p).anomalies = bpCheck s ++ durationCheck s) := by
  refine ⟨rfl, fun h => ?_⟩
  have hz := weightGainCheck_eq_nil_of_skip s p h
  exact ⟨hz, by rw [detectAnomalies_anomalies, hz]; simp⟩

theorem claim_C5_witness :
    (sessC5.preWeight = 0 ∨ patC5.dryWeight = 0) ∧
      weightGainCheck sessC5 patC5 = [] ∧
      (detectAnomalies sessC5 patC5).anomalies =
        bpCheck sessC5 ++ durationCheck sessC5 := by
  have h : sessC5.preWeight = 0 ∨ patC5.dryWeight = 0 := Or.inl rfl
  exact ⟨h, (claim_C5 sessC5 patC5).2 h⟩

/-- Claim C6: the evaluator is deterministic: identical inputs produce
identical outputs (same record, same strings, same order, same count, same
flag).  The embedding is a pure function, matching the source, which never
writes to its arguments. -/
theorem claim_C6 (s1 s2 : ISession) (p1 p2 : PatientArg)
    (hs : s1 = s2) (hp : p1 = p2) :
    detectAnomalies s1 p1 = detectAnomalies s2 p2 ∧
    (detectAnomalies s1 p1).anomalies = (detectAnomalies s2 p2).anomalies ∧
    (detectAnomalies s1 p1).anomalies.length =
      (detectAnomalies s2 p2).anomalies.length ∧
    (detectAnomalies s1 p1).hasAnomalies = (detectAnomalies s2 p2).hasAnomalies := by
  subst hs; subst hp
  exact ⟨rfl, rfl, rfl, rfl⟩

theorem claim_C6_witness :
    detectAnomalies sessC6 patC6 = detectAnomalies sessC6 patC6 :=
  (claim_C6 sessC6 sessC6 patC6 patC6 rfl rfl).1

/-- Claim C7: the hasAnomalies flag returned by the evaluator is true
exactly when the returned anomaly list is non-empty. -/
theorem claim_C7 (s : ISession) (p : PatientArg) :
    (detectAnomalies s p).hasAnomalies = true ↔
      (detectAnomalies s p).anomalies.length > 0 := by
  simp [detectAnomalies]

/-- Claim C2: when both times are present and startTime < endTime, with
durationMinutes compared unrounded: the short anomaly appears iff
durationMinutes < 150, the long anomaly iff durationMinutes > 300, no
duration anomaly iff durationMinutes ∈ [150, 300], and short and long can
never appear together. -/
theorem claim_C2 (s : ISession) (p : PatientArg) (et : ℤ) (d : ℚ)
    (he : s.endTime = some et) (_hlt : s.startTime < et)
    (hd : d = ((et : ℚ) - (s.startTime : ℚ)) / (1000 * 60)) :
    ((shortDurationMsg d ∈ (detectAnomalies s p).anomalies) ↔ d < 150) ∧
    ((longDurationMsg d ∈ (detectAnomalies s p).anomalies) ↔ d > 300) ∧
    (durationCheck s = [] ↔ 150 ≤ d ∧ d ≤ 300) ∧
    ¬(shortDurationMsg d ∈ (detectAnomalies s p).anomalies ∧
      longDurationMsg d ∈ (detectAnomalies s p).anomalies) := by
  have hdc := durationCheck_eq he hd
  have hMIN : ANOMALY_THRESHOLDS.MIN_SESSION_DURATION = 150 := rfl
  have hMAX : ANOMALY_THRESHOLDS.MAX_SESSION_DURATION = 300 := rfl
  rw [hMIN, hMAX] at hdc
  have hshort : (shortDurationMsg d ∈ (detectAnomalies s p).anomalies) ↔ d < 150 := by
    constructor
    · intro hmem
      rw [detectAnomalies_anomalies] at hmem
      rcases List.mem_append.mp hmem with hmem2 | hdur
      · rcases List.mem_append.mp hmem2 with hwg | hbp
        · have h1 := mem_weightGainCheck_head hwg
          rw [strHead_shortDurationMsg] at h1
          exact absurd h1 (by decide)
        · have h1 := mem_bpCheck_head hbp
          rw [strHead_shortDurationMsg] at h1
          exact absurd h1 (by decide)
      · rw [hdc] at hdur
        split_ifs at hdur with h1 h2
        · exact h1
        · simp only [List.mem_singleton] at hdur
          have hh := strHead_shortDurationMsg d
          rw [hdur, strHead_longDurationMsg] at hh
          exact absurd hh (by decide)
        · simp at hdur
    · intro h1
      rw [detectAnomalies_anomalies]
      apply List.mem_append_right
      rw [hdc, if_pos h1]
      exact List.mem_singleton_self _
  have hlong : (longDurationMsg d ∈ (detectAnomalies s p).anomalies) ↔ d > 300 := by
    constructor
    · intro hmem
      rw [detectAnomalies_anomalies] at hmem
      rcases List.mem_append.mp hmem with hmem2 | hdur
      · rcases List.mem_append.mp hmem2 with hwg | hbp
        · have h1 := mem_weightGainCheck_head hwg
          rw [strHead_longDurationMsg] at h1
          exact absurd h1 (by decide)
        · have h1 := mem_bpCheck_head hbp
          rw [strHead_longDurationMsg] at h1
          exact absurd h1 (by decide)
      · rw [hdc] at hdur
        split_ifs at hdur with h1 h2
        · simp only [List.mem_singleton] at hdur
          have hh := strHead_longDurationMsg d
          rw [hdur, strHead_shortDurationMsg] at hh
          exact absurd hh (by decide)
        · exact h2
        · simp at hdur
    · intro h2
      have h1 : ¬d < 150 := by linarith
      rw [detectAnomalies_anomalies]
      apply List.mem_append_right
      rw [hdc, if_neg h1, if_pos h2]
      exact List.mem_singleton_self _
  refine ⟨hshort, hlong, ⟨?_, ?_⟩, ?_⟩
  · intro h0
    rw [hdc] at h0
    split_ifs at h0 with h1 h2
    exact ⟨not_lt.mp h1, not_lt.mp h2⟩
  · rintro ⟨ha, hb⟩
    rw [hdc, if_neg (not_lt.mpr ha), if_neg (not_lt.mpr hb)]
  · rintro ⟨hs', hl'⟩
    have d1 := hshort.mp hs'
    have d2 := hlong.mp hl'
    linarith

theorem claim_C2_witness :
    sessC2.endTime = some 7200000 ∧ sessC2.startTime < 7200000 ∧
      shortDurationMsg 120 ∈ (detectAnomalies sessC2 patC2).anomalies := by
  refine ⟨rfl, by norm_num [sessC2], ?_⟩
  have hd : (120 : ℚ) = (((7200000 : ℤ) : ℚ) - (sessC2.startTime : ℚ)) / (1000 * 60) := by
    norm_num [sessC2]
  exact (claim_C2 sessC2 patC2 7200000 120 rfl (by norm_num [sessC2]) hd).1.mpr
    (by norm_num)

/-- Claim C3: the high post-dialysis systolic BP anomaly appears iff the
optional chain vitals.post.systolicBP yields a value above 140 (absent
vitals.post never triggers it), and when it appears the message is exactly
the formatted BP string. -/
theorem claim_C3 (s : ISession) (p : PatientArg) :
    ((∃ m, m ∈ (detectAnomalies s p).anomalies ∧ ∃ b : ℚ, m = highBPMsg b) ↔
      (∃ b : ℚ, postBP s = some b ∧ b > 140)) ∧
    (∀ b : ℚ, postBP s = some b → b > 140 →
      highBPMsg b ∈ (detectAnomalies s p).anomalies) := by
  have hT : ANOMALY_THRESHOLDS.HIGH_SYSTOLIC_BP = 140 := rfl
  have hmk : ∀ b : ℚ, postBP s = some b → b > 140 →
      highBPMsg b ∈ (detectAnomalies s p).anomalies := by
    intro b hb hgt
    obtain ⟨v, post, hv, hp2, hbp⟩ := postBP_eq_some hb
    have h0 : post.systolicBP ≠ 0 := by rw [hbp]; exact ne_of_gt (by linarith)
    have hgt2 : post.systolicBP > ANOMALY_THRESHOLDS.HIGH_SYSTOLIC_BP := by
      rw [hbp, hT]; exact hgt
    rw [detectAnomalies_anomalies]
    apply List.mem_append_left
    apply List.mem_append_right
    rw [bpCheck_eq_pos hv hp2 h0 hgt2, hbp]
    exact List.mem_singleton_self _
  refine ⟨⟨?_, ?_⟩, hmk⟩
  · rintro ⟨m, hmem, b, hmb⟩
    rw [detectAnomalies_anomalies] at hmem
    rcases List.mem_append.mp hmem with hmem2 | hdur
    · rcases List.mem_append.mp hmem2 with hwg | hbp
      · have h1 := mem_weightGainCheck_head hwg
        rw [hmb, strHead_highBPMsg] at h1
        exact absurd h1 (by decide)
      · obtain ⟨v, post, hv, hp2, h0, hgt, hmeq⟩ := mem_bpCheck hbp
        refine ⟨post.systolicBP, ?_, by rw [← hT]; exact hgt⟩
        simp [postBP, hv, hp2]
    · have h1 := mem_durationCheck_head hdur
      rw [hmb, strHead_highBPMsg] at h1
      rcases h1 with h1 | h1 <;> exact absurd h1 (by decide)
  · rintro ⟨b, hb, hgt⟩
    exact ⟨highBPMsg b, hmk b hb hgt, b, rfl⟩

theorem claim_C3_witness :
    postBP sessC3 = some 145 ∧
      "High post-dialysis systolic BP: 145 mmHg (threshold: 140 mmHg)" ∈
        (detectAnomalies sessC3 patC3).anomalies := by
  refine ⟨rfl, ?_⟩
  have h := (claim_C3 sessC3 patC3).2 145 rfl (by norm_num)
  rwa [show highBPMsg 145 =
    "High post-dialysis systolic BP: 145 mmHg (threshold: 140 mmHg)" from rfl] at h

theorem eq_singleton_of_len_le_one {l : List String} (hle : l.length ≤ 1)
    (hne : l ≠ []) : ∃ x, l = [x] := by
  cases l with
  | nil => exact absurd rfl hne
  | cons a t =>
    cases t with
    | nil => exact ⟨a, rfl⟩
    | cons b t2 => simp at hle

/-- Claim C4: the anomaly list is the ordered concatenation of the three
checks (weight gain, then BP, then duration), each check contributes at
most one string, the list has at most three entries, and when all three
triggers fire the result is exactly three strings in that order. -/
theorem claim_C4 (s : ISession) (p : PatientArg) :
    (detectAnomalies s p).anomalies =
      weightGainCheck s p ++ bpCheck s ++ durationCheck s ∧
    (weightGainCheck s p).length ≤ 1 ∧ (bpCheck s).length ≤ 1 ∧
    (durationCheck s).length ≤ 1 ∧
    (detectAnomalies s p).anomalies.length ≤ 3 ∧
    (weightGainCheck s p ≠ [] → bpCheck s ≠ [] → durationCheck s ≠ [] →
      ∃ w b dm, weightGainCheck s p = [w] ∧ bpCheck s = [b] ∧
        durationCheck s = [dm] ∧ (detectAnomalies s p).anomalies = [w, b, dm]) := by
  have h1 := length_weightGainCheck_le s p
  have h2 := length_bpCheck_le s
  have h3 := length_durationCheck_le s
  refine ⟨rfl, h1, h2, h3, ?_, ?_⟩
  · rw [detectAnomalies_anomalies]
    simp only [List.length_append]
    omega
  · intro hw hb hd
    obtain ⟨w, hw1⟩ := eq_singleton_of_len_le_one h1 hw
    obtain ⟨b, hb1⟩ := eq_singleton_of_len_le_one h2 hb
    obtain ⟨dm, hd1⟩ := eq_singleton_of_len_le_one h3 hd
    exact ⟨w, b, dm, hw1, hb1, hd1, by
      rw [detectAnomalies_anomalies, hw1, hb1, hd1]; rfl⟩

theorem claim_C4_witness :
    weightGainCheck sessC4 patC4 ≠ [] ∧ bpCheck sessC4 ≠ [] ∧
      durationCheck sessC4 ≠ [] ∧
      ∃ w b dm, (detectAnomalies sessC4 patC4).anomalies = [w, b, dm] := by
  have hw : weightGainCheck sessC4 patC4 =
      [excessWeightMsg (sessC4.preWeight - patC4.dryWeight)
        ((sessC4.preWeight - patC4.dryWeight) / patC4.dryWeight)] :=
    weightGainCheck_eq_pos _ _ (by norm_num [sessC4]) (by norm_num [patC4])
      (by norm_num [sessC4, patC4, ANOMALY_THRESHOLDS])
  have hbp : bpCheck sessC4 = [highBPMsg (145 : ℚ)] := by
    simp only [bpCheck, sessC4]
    rw [if_pos (by norm_num : (145 : ℚ) ≠ 0),
      if_pos (by norm_num [ANOMALY_THRESHOLDS] :
        (145 : ℚ) > ANOMALY_THRESHOLDS.HIGH_SYSTOLIC_BP)]
  have hdm : (120 : ℚ) = (((7200000 : ℤ) : ℚ) - (sessC4.startTime : ℚ)) / (1000 * 60) := by
    norm_num [sessC4]
  have hdur : durationCheck sessC4 = [shortDurationMsg 120] := by
    rw [durationCheck_eq rfl hdm, if_pos (by norm_num [ANOMALY_THRESHOLDS])]
  refine ⟨by rw [hw]; simp, by rw [hbp]; simp, by rw [hdur]; simp, ?_⟩
  obtain ⟨-, -, -, -, -, h6⟩ := claim_C4 sessC4 patC4
  obtain ⟨w, b, dm, -, -, -, hh⟩ :=
    h6 (by rw [hw]; simp) (by rw [hbp]; simp) (by rw [hdur]; simp)
  exact ⟨w, b, dm, hh⟩

theorem excessWeightMsg_eval_neg10 :
    excessWeightMsg (-10) (1/7) =
      "Excess interdialytic weight gain: -10.00 kg (14.3% of dry weight)" := by
  unfold excessWeightMsg
  rw [jsToFixed_eval_neg (-10) 2 (by norm_num), show -(-10 : ℚ) = 10 by norm_num,
    jsToFixedPos_eval 10 2 1000 (by norm_num) (by norm_num),
    jsToFixed_eval_nonneg (1/7 * 100) 1 (by norm_num),
    jsToFixedPos_eval (1/7 * 100) 1 143 (by norm_num) (by norm_num)]
  rfl

theorem claim_C8_counterexample :
    sessC8.preWeight ≤ patC8.dryWeight ∧
      (detectAnomalies sessC8 patC8).anomalies =
        ["Excess interdialytic weight gain: -10.00 kg (14.3% of dry weight)"] := by
  refine ⟨by norm_num [sessC8, patC8], ?_⟩
  have hw := weightGainCheck_eq_pos sessC8 patC8 (by norm_num [sessC8])
    (by norm_num [patC8]) (by norm_num [sessC8, patC8, ANOMALY_THRESHOLDS])
  have e2 : (sessC8.preWeight - patC8.dryWeight) / patC8.dryWeight = 1/7 := by
    norm_num [sessC8, patC8]
  have e1 : sessC8.preWeight - patC8.dryWeight = -10 := by norm_num [sessC8, patC8]
  rw [e2, e1, excessWeightMsg_eval_neg10] at hw
  rw [detectAnomalies_anomalies, hw]
  rfl

/-- Claim C8 (amended): for every input whose dryWeight is non-negative, a
negative or zero weight gain (preWeight ≤ dryWeight) never triggers the
excess-weight-gain anomaly, and no weight-loss anomaly exists.  (With a
negative dryWeight — accepted by the evaluator, which does not validate
inputs — a weight loss can trigger the check, see the counterexample.) -/
theorem claim_C8 (s : ISession) (p : PatientArg)
    (h0 : 0 ≤ p.dryWeight) (hle : s.preWeight ≤ p.dryWeight) :
    weightGainCheck s p = [] ∧
      ∀ m ∈ (detectAnomalies s p).anomalies, strHead m ≠ some 'E' := by
  have hng : ¬((s.preWeight - p.dryWeight) / p.dryWeight >
      ANOMALY_THRESHOLDS.MAX_WEIGHT_GAIN_PERCENT) := by
    have hnp : (s.preWeight - p.dryWeight) / p.dryWeight ≤ 0 :=
      div_nonpos_iff.mpr (Or.inr ⟨sub_nonpos.mpr hle, h0⟩)
    have hT : ANOMALY_THRESHOLDS.MAX_WEIGHT_GAIN_PERCENT = 0.05 := rfl
    rw [hT]
    exact not_lt.mpr (le_trans hnp (by norm_num))
  have hz := weightGainCheck_eq_nil_of_not_gt s p hng
  refine ⟨hz, ?_⟩
  intro m hm
  rw [detectAnomalies_anomalies] at hm
  rcases List.mem_append.mp hm with hm2 | hdur
  · rcases List.mem_append.mp hm2 with hwg | hbp
    · rw [hz] at hwg; simp at hwg
    · rw [mem_bpCheck_head hbp]; decide
  · rcases mem_durationCheck_head hdur with h | h <;> rw [h] <;> decide

theorem claim_C8_witness :
    (0 : ℚ) ≤ patC8w.dryWeight ∧ sessC8w.preWeight ≤ patC8w.dryWeight ∧
      weightGainCheck sessC8w patC8w = [] := by
  refine ⟨by norm_num [patC8w], by norm_num [sessC8w, patC8w], ?_⟩
  exact (claim_C8 sessC8w patC8w (by norm_num [patC8w])
    (by norm_num [sessC8w, patC8w])).1

/-- Claim C9: the update handler recomputes and overwrites the stored
anomaly list exactly when the payload touches postWeight, vitals.post, or
endTime (and the patient lookup succeeds); an update touching none of the
three leaves the stored list unchanged. -/
theorem claim_C9 (s : ISession) (u : UpdatePayload) (p : PatientArg) :
    (shouldRecompute u = true →
      (patchSessionUpdate s u (some p)).anomalies =
        (detectAnomalies (applyUpdates s u) p).anomalies) ∧
    (shouldRecompute u = false →
      ∀ pl : Option PatientArg, (patchSessionUpdate s u pl).anomalies = s.anomalies) ∧
    (shouldRecompute u = true ↔
      (u.postWeight.isSome ∨ (∃ uv, u.vitals = some uv ∧ uv.post.isSome) ∨
        u.endTime.isSome)) := by
  refine ⟨?_, ?_, ?_⟩
  · intro h
    simp only [patchSessionUpdate]
    rw [if_pos h]
  · intro h pl
    simp only [patchSessionUpdate]
    rw [if_neg (by simp [h])]
    rfl
  · cases hv : u.vitals with
    | none => simp [shouldRecompute, hv, Bool.or_eq_true]
    | some uv => simp [shouldRecompute, hv, Bool.or_eq_true, or_assoc]

theorem claim_C9_witness :
    (shouldRecompute updC9notes = false ∧
      (patchSessionUpdate sessC9 updC9notes (some patC9)).anomalies =
        sessC9.anomalies) ∧
    (shouldRecompute updC9post = true ∧
      (patchSessionUpdate sessC9 updC9post (some patC9)).anomalies =
        (detectAnomalies (applyUpdates sessC9 updC9post) patC9).anomalies) := by
  refine ⟨⟨rfl, ?_⟩, ⟨rfl, ?_⟩⟩
  · exact (claim_C9 sessC9 updC9notes patC9).2.1 rfl (some patC9)
  · exact (claim_C9 sessC9 updC9post patC9).1 rfl

/-- Claim C10 (amended): when both times are present and endTime is
strictly earlier than startTime, the evaluator does not skip: it computes a
negative durationMinutes and emits the Short-session anomaly.  The
displayed minute count is Math.round of the negative duration, hence at
most 0, and strictly negative exactly when durationMinutes < -1/2 (a gap
of more than 30 seconds); for smaller gaps the display rounds up to 0. -/
theorem claim_C10 (s : ISession) (p : PatientArg) (et : ℤ) (d : ℚ)
    (he : s.endTime = some et) (hlt : et < s.startTime)
    (hd : d = ((et : ℚ) - (s.startTime : ℚ)) / (1000 * 60)) :
    d < 0 ∧ shortDurationMsg d ∈ (detectAnomalies s p).anomalies ∧
      jsRound d ≤ 0 ∧ (jsRound d < 0 ↔ d < -(1/2)) := by
  have hdneg : d < 0 := by
    rw [hd]
    apply div_neg_of_neg_of_pos
    · have hc : (et : ℚ) < (s.startTime : ℚ) := by exact_mod_cast hlt
      linarith
    · norm_num
  have hdc := durationCheck_eq he hd
  have hMIN : ANOMALY_THRESHOLDS.MIN_SESSION_DURATION = 150 := rfl
  rw [hMIN] at hdc
  refine ⟨hdneg, ?_, ?_, ?_⟩
  · rw [detectAnomalies_anomalies]
    apply List.mem_append_right
    rw [hdc, if_pos (by linarith : d < 150)]
    exact List.mem_singleton_self _
  · have hfl : ⌊d + 1/2⌋ < 1 := Int.floor_lt.mpr (by push_cast; linarith)
    unfold jsRound
    omega
  · unfold jsRound
    constructor
    · intro h
      have hfl := Int.floor_lt.mp h
      push_cast at hfl
      linarith
    · intro h
      apply Int.floor_lt.mpr
      push_cast
      linarith

theorem shortDurationMsg_eval_neg_small :
    shortDurationMsg (-(1/60)) =
      "Short session duration: 0 minutes (minimum: 150 minutes)" := by
  unfold shortDurationMsg
  rw [jsRound_eval (-(1/60)) 0 (by norm_num) (by norm_num)]
  rfl

theorem claim_C10_counterexample :
    sessC10.endTime = some 0 ∧ (0 : ℤ) < sessC10.startTime ∧
      (detectAnomalies sessC10 patC10).anomalies =
        ["Short session duration: 0 minutes (minimum: 150 minutes)"] := by
  refine ⟨rfl, by norm_num [sessC10], ?_⟩
  have hw : weightGainCheck sessC10 patC10 = [] :=
    weightGainCheck_eq_nil_of_not_gt _ _
      (by norm_num [sessC10, patC10, ANOMALY_THRESHOLDS])
  have hd0 : (-(1/60) : ℚ) = (((0 : ℤ) : ℚ) - (sessC10.startTime : ℚ)) / (1000 * 60) := by
    norm_num [sessC10]
  have hdc := durationCheck_eq (show sessC10.endTime = some 0 from rfl) hd0
  rw [detectAnomalies_anomalies, hw, hdc,
    if_pos (by norm_num [ANOMALY_THRESHOLDS] :
      (-(1/60) : ℚ) < ANOMALY_THRESHOLDS.MIN_SESSION_DURATION),
    shortDurationMsg_eval_neg_small]
  rfl

theorem claim_C10_witness :
    sessC10w.endTime = some 0 ∧ (0 : ℤ) < sessC10w.startTime ∧
      (-60 : ℚ) < 0 ∧
      shortDurationMsg (-60) ∈ (detectAnomalies sessC10w patC10w).anomalies ∧
      jsRound (-60) < 0 := by
  have hd : (-60 : ℚ) = (((0 : ℤ) : ℚ) - (sessC10w.startTime : ℚ)) / (1000 * 60) := by
    norm_num [sessC10w]
  obtain ⟨h1, h2, h3, h4⟩ := claim_C10 sessC10w patC10w 0 (-60) rfl
    (by norm_num [sessC10w]) hd
  exact ⟨rfl, by norm_num [sessC10w], h1, h2, h4.mpr (by norm_num)⟩
